import Mathlib

/-!
Verification of the diagnostic-reporting core of ephemeris-compute-de430,
a shallow embedding of `src/coreUtils/errorReport.c`.

Modelling decisions:

* C strings are `List Char`.  The five static scratch buffers
  `temp_stringA` .. `temp_stringE` (each `char[LSTR_LENGTH]`), the log-sink
  state (`static FILE *logfile`, `static int latch` inside `ephem_log`), the
  on-disk contents of `ephem.log`, and the bytes written to the stderr and
  stdout streams together form one explicit `State`.

* A message argument `char *msg` is a `Ref`: either a pointer to one of the
  five scratch slots or a caller-owned string (`Ref.lit`).  Pointer
  comparisons such as `msg != temp_stringA` become equality tests on `Ref`.

* `strcpy` into a fixed-capacity buffer copies the whole source with no
  truncation; writing more than the destination can hold is undefined
  behaviour in C, recorded here by the `overrun` flag.  `snprintf(dst, n, ..)`
  truncates its output to at most `n - 1` characters.

* `DEBUG`, `FNAME_LENGTH` and `LSTR_LENGTH` come from headers that are not
  part of this repository snapshot (`strConstants.h`, build settings), so
  they are parameters of a `Config`, as are the success of
  `fopen("ephem.log", "w")` and the opaque timestamp string produced by the
  external collaborators `friendly_time_string` / `str_strip`.

* `exit(1)` never returns, so every operation yields a `Result`: a `normal`
  return, an `exited code` process termination, or `stuck` when the fuel of
  the bounded-recursion interpreter runs out (the real call graph
  `ephem_log → ephem_fatal → ephem_error → ephem_log` has depth at most
  three thanks to the latch, so the fixed fuel below is never exhausted on
  any path exercised by the theorems).
-/

/-- Character-list view of a string literal. -/
def chars (s : String) : List Char := s.data

/-- Compile-time and environment parameters of `errorReport.c`:
the `DEBUG` flag, the two capacity macros `FNAME_LENGTH` and `LSTR_LENGTH`
from the missing `strConstants.h` header, whether `fopen("ephem.log", "w")`
succeeds, and the opaque timestamp text returned by the external
`friendly_time_string` / `str_strip` collaborators. -/
structure Config where
  debug : Bool
  fnameLength : Nat
  lstrLength : Nat
  logOpenable : Bool
  timestamp : List Char
deriving DecidableEq

/-- The mutable state of the module: the five `static char[LSTR_LENGTH]`
scratch slots (line 32), the log-sink state owned by `ephem_log`
(lines 94-95), the on-disk log file, counters observing opens and writes,
and the two output streams.  `overrun` records that some `strcpy` wrote
past the end of its destination slot. -/
structure State where
  temp_stringA : List Char
  temp_stringB : List Char
  temp_stringC : List Char
  temp_stringD : List Char
  temp_stringE : List Char
  logfileOpen : Bool
  latch : Bool
  lineBuffered : Bool
  diskLog : List (List Char)
  openAttempts : Nat
  logWriteCount : Nat
  stderrOut : List (List Char)
  stdoutOut : List (List Char)
  overrun : Bool
deriving DecidableEq

/-- A `char *msg` argument: a pointer to one of the scratch slots of the module,
or caller-owned storage distinct from all of them. -/
inductive Ref where
  | strA
  | strB
  | strC
  | strD
  | strE
  | lit (s : List Char)
deriving DecidableEq

/-- Read the text a reference currently points at. -/
def Ref.deref : Ref → State → List Char
  | .strA, σ => σ.temp_stringA
  | .strB, σ => σ.temp_stringB
  | .strC, σ => σ.temp_stringC
  | .strD, σ => σ.temp_stringD
  | .strE, σ => σ.temp_stringE
  | .lit s, _ => s

/-- Outcome of running an entry point of the module: a normal return,
process termination via `exit`, or fuel exhaustion of the interpreter. -/
inductive Result where
  | normal (σ : State)
  | exited (code : Nat) (σ : State)
  | stuck
deriving DecidableEq

/-- The exit status when the operation terminated the process. -/
def Result.exitCode : Result → Option Nat
  | .exited c _ => some c
  | _ => none

/-- The module state when the operation completed (normally or by exit). -/
def Result.finalState : Result → Option State
  | .normal σ => some σ
  | .exited _ σ => some σ
  | .stuck => none

/-- C statement sequencing after a call that may have terminated the
process: the continuation runs only on a normal return. -/
def Result.andThen : Result → (State → Result) → Result
  | .normal σ, g => g σ
  | other, _ => other

/-- C `snprintf(dst, n, ...)`: at most `n - 1` characters are stored. -/
def snprintfTrunc (n : Nat) (s : List Char) : List Char := s.take (n - 1)

/-- C `strcpy` into a buffer of capacity `cap`: the full source (plus its
terminating NUL) is written with no truncation; the returned flag records a
write past the end of the buffer. -/
def strcpyWrite (cap : Nat) (src : List Char) (ov : Bool) : List Char × Bool :=
  (src, ov || decide (cap < src.length + 1))

/-- The mode string of the `fopen` call in `ephem_log` (line 101). -/
def logOpenMode : List Char := chars "w"

/-- Effect of `fopen(path, mode)` on the contents of an existing file:
append modes keep the contents, write modes truncate to empty. -/
def fopenContents (mode : List Char) (disk : List (List Char)) : List (List Char) :=
  if mode.head? = some 'a' then disk
  else if mode.head? = some 'w' then []
  else disk

/-- The aliasing-checked copy at the top of `ephem_error` (lines 39-42):
`if ((msg != temp_stringA) && (msg != temp_stringB)) { strcpy(temp_stringA, msg); msg = temp_stringA; }`.
Returns the new value of the local `msg` pointer together with the state. -/
def errorIntake (cfg : Config) (r : Ref) (σ : State) : Ref × State :=
  if r = Ref.strA ∨ r = Ref.strB then (r, σ)
  else
    let c := strcpyWrite cfg.lstrLength (r.deref σ) σ.overrun
    (Ref.strA, { σ with temp_stringA := c.1, overrun := c.2 })

/-- The aliasing-checked copy shared by `ephem_warning` (line 68) and
`ephem_report` (line 81): `if (msg != temp_stringA) strcpy(temp_stringA, msg);`. -/
def copyToTempA (cfg : Config) (r : Ref) (σ : State) : State :=
  if r = Ref.strA then σ
  else
    let c := strcpyWrite cfg.lstrLength (r.deref σ) σ.overrun
    { σ with temp_stringA := c.1, overrun := c.2 }

/-- The aliasing-checked copy at the top of `ephem_fatal` (line 56):
`if (msg != temp_stringE) strcpy(temp_stringE, msg);`. -/
def fatalIntake (cfg : Config) (r : Ref) (σ : State) : State :=
  if r = Ref.strE then σ
  else
    let c := strcpyWrite cfg.lstrLength (r.deref σ) σ.overrun
    { σ with temp_stringE := c.1, overrun := c.2 }

/-- The tail of `ephem_log` once the file is open (lines 108-110): copy the
message into `temp_stringD` unless it already aliases it, `fprintf` the
timestamped line (no truncation), release the latch. -/
def logWriteStep (cfg : Config) (r : Ref) (σ : State) : State :=
  let σ1 := if r = Ref.strD then σ
            else
              let c := strcpyWrite cfg.lstrLength (r.deref σ) σ.overrun
              { σ with temp_stringD := c.1, overrun := c.2 }
  let line := chars "[" ++ cfg.timestamp ++ chars "] " ++ σ1.temp_stringD ++ chars "\n"
  { σ1 with diskLog := σ1.diskLog ++ [line],
            logWriteCount := σ1.logWriteCount + 1,
            latch := false }

/-- `ephem_log` (lines 93-111).  `recFatal` is the recursive call into
`ephem_fatal` made when the log file cannot be opened (line 102); the
`exit(1)` on line 103 is the `Result.exited 1` wrapped around a normal
return of that call. -/
def ephem_logBody (recFatal : List Char → Int → Ref → State → Result)
    (cfg : Config) (r : Ref) (σ : State) : Result :=
  if σ.latch then Result.normal σ
  else
    let σ1 : State := { σ with latch := true }
    if σ1.logfileOpen then Result.normal (logWriteStep cfg r σ1)
    else if cfg.logOpenable then
      Result.normal (logWriteStep cfg r
        { σ1 with logfileOpen := true,
                  openAttempts := σ1.openAttempts + 1,
                  diskLog := fopenContents logOpenMode σ1.diskLog,
                  lineBuffered := true })
    else
      let σ2 : State := { σ1 with openAttempts := σ1.openAttempts + 1 }
      (recFatal (chars "errorReport.c") 102
          (Ref.lit (chars "Could not open log file to write.")) σ2).andThen
        (fun σ3 => Result.exited 1 σ3)

/-- `ephem_error` (lines 38-49).  `recLog` is the call into `ephem_log`
made when `DEBUG` is set. -/
def ephem_errorBody (recLog : Ref → State → Result)
    (cfg : Config) (r : Ref) (σ : State) : Result :=
  let p := errorIntake cfg r σ
  let afterDebug : Result :=
    if cfg.debug then
      recLog Ref.strC
        { p.2 with temp_stringC :=
            snprintfTrunc cfg.fnameLength (chars "Error: " ++ p.1.deref p.2) }
    else Result.normal p.2
  afterDebug.andThen (fun σ3 =>
    let line := snprintfTrunc cfg.fnameLength (chars "Error: " ++ p.1.deref σ3 ++ chars "\n")
    Result.normal { σ3 with temp_stringC := line, stderrOut := σ3.stderrOut ++ [line] })

/-- `ephem_warning` (lines 67-75). -/
def ephem_warningBody (recLog : Ref → State → Result)
    (cfg : Config) (r : Ref) (σ : State) : Result :=
  let σ1 := copyToTempA cfg r σ
  let afterDebug : Result :=
    if cfg.debug then
      recLog Ref.strC
        { σ1 with temp_stringC :=
            snprintfTrunc cfg.fnameLength (chars "Warning: " ++ σ1.temp_stringA) }
    else Result.normal σ1
  afterDebug.andThen (fun σ3 =>
    let line := snprintfTrunc cfg.fnameLength (chars "Warning: " ++ σ3.temp_stringA ++ chars "\n")
    Result.normal { σ3 with temp_stringC := line, stderrOut := σ3.stderrOut ++ [line] })

/-- `ephem_report` (lines 80-88): same intake as `ephem_warning`, the
debug mirror is prefixed `Reporting: `, the stream line is the bare message
and goes to stdout. -/
def ephem_reportBody (recLog : Ref → State → Result)
    (cfg : Config) (r : Ref) (σ : State) : Result :=
  let σ1 := copyToTempA cfg r σ
  let afterDebug : Result :=
    if cfg.debug then
      recLog Ref.strC
        { σ1 with temp_stringC :=
            snprintfTrunc cfg.fnameLength (chars "Reporting: " ++ σ1.temp_stringA) }
    else Result.normal σ1
  afterDebug.andThen (fun σ3 =>
    let line := snprintfTrunc cfg.fnameLength (σ3.temp_stringA ++ chars "\n")
    Result.normal { σ3 with temp_stringC := line, stdoutOut := σ3.stdoutOut ++ [line] })

/-- The `introline` built by `ephem_fatal` (line 57):
`snprintf(introline, FNAME_LENGTH, "Fatal Error encountered in %s at line %d:", file, line)`. -/
def fatalIntro (cfg : Config) (file : List Char) (line : Int) : List Char :=
  snprintfTrunc cfg.fnameLength
    (chars "Fatal Error encountered in " ++ file ++ chars " at line " ++
      chars (toString line) ++ chars ":")

/-- `ephem_fatal` (lines 54-62).  `recError` and `recLog` are the calls
into `ephem_error` and `ephem_log`; the final `Result.exited 1` is the
`exit(1)` on line 61. -/
def ephem_fatalBody (recError : Ref → State → Result) (recLog : Ref → State → Result)
    (cfg : Config) (file : List Char) (line : Int) (r : Ref) (σ : State) : Result :=
  let σ1 := fatalIntake cfg r σ
  (recError (Ref.lit (fatalIntro cfg file line)) σ1).andThen (fun σ2 =>
    (recError Ref.strE σ2).andThen (fun σ3 =>
      (if cfg.debug then
          recLog (Ref.lit (chars "Terminating with error condition 1.")) σ3
        else Result.normal σ3).andThen
        (fun σ4 => Result.exited 1 σ4)))

/-- Number of complete elements `fread(ptr, size, nmemb, stream)` returns
from a stream holding `avail` bytes. -/
def freadCount (size nmemb avail : Nat) : Nat :=
  if size = 0 ∨ nmemb = 0 then 0 else min nmemb (avail / size)

/-- `dcffread` (lines 113-115): escalate any short read to `ephem_fatal`. -/
def dcffreadBody (recFatal : List Char → Int → Ref → State → Result)
    (size nmemb avail : Nat) (σ : State) : Result :=
  if freadCount size nmemb avail ≠ nmemb then
    recFatal (chars "errorReport.c") 114 (Ref.lit (chars "file read fail")) σ
  else Result.normal σ

/-- One entry-point invocation of the module. -/
inductive Call where
  | log (r : Ref)
  | error (r : Ref)
  | warning (r : Ref)
  | report (r : Ref)
  | fatal (file : List Char) (line : Int) (r : Ref)
  | read (size nmemb avail : Nat)
deriving DecidableEq

/-- Bounded-recursion interpreter tying the bodies together along the real
call graph of `errorReport.c`.  The fuel only bounds the recursion
`ephem_log → ephem_fatal → ephem_error → ephem_log`, which the latch cuts
off at depth three in every actual execution. -/
def run : Nat → Config → Call → State → Result
  | 0, _, _, _ => Result.stuck
  | f + 1, cfg, c, σ =>
    match c with
    | .log r => ephem_logBody (fun file line m τ => run f cfg (.fatal file line m) τ) cfg r σ
    | .error r => ephem_errorBody (fun m τ => run f cfg (.log m) τ) cfg r σ
    | .warning r => ephem_warningBody (fun m τ => run f cfg (.log m) τ) cfg r σ
    | .report r => ephem_reportBody (fun m τ => run f cfg (.log m) τ) cfg r σ
    | .fatal file line r =>
      ephem_fatalBody (fun m τ => run f cfg (.error m) τ) (fun m τ => run f cfg (.log m) τ)
        cfg file line r σ
    | .read size nmemb avail =>
      dcffreadBody (fun file line m τ => run f cfg (.fatal file line m) τ) size nmemb avail σ

/-- Fuel that no execution path of the module can exhaust. -/
def FUEL : Nat := 8

/-- Top-level `ephem_log`. -/
def ephem_log (cfg : Config) (r : Ref) (σ : State) : Result := run FUEL cfg (.log r) σ

/-- Top-level `ephem_error`. -/
def ephem_error (cfg : Config) (r : Ref) (σ : State) : Result := run FUEL cfg (.error r) σ

/-- Top-level `ephem_warning`. -/
def ephem_warning (cfg : Config) (r : Ref) (σ : State) : Result := run FUEL cfg (.warning r) σ

/-- Top-level `ephem_report`. -/
def ephem_report (cfg : Config) (r : Ref) (σ : State) : Result := run FUEL cfg (.report r) σ

/-- Top-level `ephem_fatal`. -/
def ephem_fatal (cfg : Config) (file : List Char) (line : Int) (r : Ref) (σ : State) : Result :=
  run FUEL cfg (.fatal file line r) σ

/-- Top-level `dcffread`; `avail` is the number of bytes the source yields. -/
def dcffread (cfg : Config) (size nmemb avail : Nat) (σ : State) : Result :=
  run FUEL cfg (.read size nmemb avail) σ

/-- The all-empty start-of-process state. -/
def initState : State :=
  { temp_stringA := [], temp_stringB := [], temp_stringC := [], temp_stringD := [],
    temp_stringE := [], logfileOpen := false, latch := false, lineBuffered := false,
    diskLog := [], openAttempts := 0, logWriteCount := 0, stderrOut := [],
    stdoutOut := [], overrun := false }

/-- A concrete non-debug configuration used by witnesses. -/
def cfgNoDebug : Config :=
  { debug := false, fnameLength := 64, lstrLength := 64, logOpenable := true,
    timestamp := chars "T" }

/-- A concrete debug configuration used by witnesses. -/
def cfgDebug : Config := { cfgNoDebug with debug := true }

/-- A state whose log sink is already open. -/
def sinkOpenState : State := { initState with logfileOpen := true }

/-- A state with messages already stored in the scratch slots, used by
witnesses of the aliasing and formatting claims. -/
def witState : State :=
  { initState with logfileOpen := true, temp_stringA := chars "boom",
                   temp_stringE := chars "prev" }

/-- A small-capacity debug configuration used by the truncation witness. -/
def cfgSmall : Config := { cfgDebug with fnameLength := 10 }

/-- The operation completed: it returned normally or exited with status 1. -/
def OkOne (res : Result) : Prop :=
  (∃ σ', res = Result.normal σ') ∨ (∃ σ', res = Result.exited 1 σ')

/-- The operation terminated the process with exit status 1. -/
def ExitsOne (res : Result) : Prop := ∃ σ', res = Result.exited 1 σ'

/-- The operation either kept running normally or exited with status 1; no
other exit status occurs. -/
def ExitCodesOk (res : Result) : Prop := res.exitCode = none ∨ res.exitCode = some 1

theorem run_succ_log (f : Nat) (cfg : Config) (r : Ref) (σ : State) :
    run (f + 1) cfg (.log r) σ =
      ephem_logBody (fun file line m τ => run f cfg (.fatal file line m) τ) cfg r σ := rfl

theorem run_succ_error (f : Nat) (cfg : Config) (r : Ref) (σ : State) :
    run (f + 1) cfg (.error r) σ =
      ephem_errorBody (fun m τ => run f cfg (.log m) τ) cfg r σ := rfl

theorem run_succ_warning (f : Nat) (cfg : Config) (r : Ref) (σ : State) :
    run (f + 1) cfg (.warning r) σ =
      ephem_warningBody (fun m τ => run f cfg (.log m) τ) cfg r σ := rfl

theorem run_succ_report (f : Nat) (cfg : Config) (r : Ref) (σ : State) :
    run (f + 1) cfg (.report r) σ =
      ephem_reportBody (fun m τ => run f cfg (.log m) τ) cfg r σ := rfl

theorem run_succ_fatal (f : Nat) (cfg : Config) (file : List Char) (line : Int) (r : Ref)
    (σ : State) :
    run (f + 1) cfg (.fatal file line r) σ =
      ephem_fatalBody (fun m τ => run f cfg (.error m) τ) (fun m τ => run f cfg (.log m) τ)
        cfg file line r σ := rfl

theorem run_succ_read (f : Nat) (cfg : Config) (size nmemb avail : Nat) (σ : State) :
    run (f + 1) cfg (.read size nmemb avail) σ =
      dcffreadBody (fun file line m τ => run f cfg (.fatal file line m) τ) size nmemb avail σ :=
  rfl

theorem run_log_latched (f : Nat) (cfg : Config) (r : Ref) (σ : State) (h : σ.latch = true) :
    run (f + 1) cfg (.log r) σ = Result.normal σ := by
  simp [run, ephem_logBody, h]

theorem run_log_open (f : Nat) (cfg : Config) (r : Ref) (σ : State)
    (hl : σ.latch = false) (ho : σ.logfileOpen = true) :
    run (f + 1) cfg (.log r) σ = Result.normal (logWriteStep cfg r { σ with latch := true }) := by
  simp [run, ephem_logBody, hl, ho]

theorem fopenContents_w (d : List (List Char)) : fopenContents logOpenMode d = [] := rfl

theorem run_log_firstOpen (f : Nat) (cfg : Config) (r : Ref) (σ : State)
    (hl : σ.latch = false) (ho : σ.logfileOpen = false) (hop : cfg.logOpenable = true) :
    run (f + 1) cfg (.log r) σ = Result.normal (logWriteStep cfg r
      { σ with latch := true, logfileOpen := true, openAttempts := σ.openAttempts + 1,
               diskLog := [], lineBuffered := true }) := by
  simp [run, ephem_logBody, hl, ho, hop, fopenContents_w]

theorem logWriteStep_eq (cfg : Config) (r : Ref) (σ : State) :
    logWriteStep cfg r σ =
      { σ with
          temp_stringD := r.deref σ,
          overrun := if r = Ref.strD then σ.overrun
                     else σ.overrun || decide (cfg.lstrLength < (r.deref σ).length + 1),
          diskLog := σ.diskLog ++ [chars "[" ++ cfg.timestamp ++ chars "] " ++ r.deref σ ++ chars "\n"],
          logWriteCount := σ.logWriteCount + 1,
          latch := false } := by
  unfold logWriteStep
  split
  next h => subst h; rfl
  next h => rfl

theorem fatalIntake_eq (cfg : Config) (r : Ref) (σ : State) :
    fatalIntake cfg r σ =
      { σ with
          temp_stringE := r.deref σ,
          overrun := if r = Ref.strE then σ.overrun
                     else σ.overrun || decide (cfg.lstrLength < (r.deref σ).length + 1) } := by
  unfold fatalIntake
  split
  next h => subst h; rfl
  next h => rfl

theorem run_error_open_lit (f : Nat) (cfg : Config) (m : List Char) (σ : State)
    (hl : σ.latch = false) (ho : σ.logfileOpen = true) :
    ∃ o, run (f + 2) cfg (.error (.lit m)) σ = Result.normal
      { σ with
          temp_stringA := m,
          temp_stringC := snprintfTrunc cfg.fnameLength (chars "Error: " ++ m ++ chars "\n"),
          temp_stringD := if cfg.debug then snprintfTrunc cfg.fnameLength (chars "Error: " ++ m)
                          else σ.temp_stringD,
          overrun := o,
          diskLog := σ.diskLog ++ (if cfg.debug then
              [chars "[" ++ cfg.timestamp ++ chars "] " ++
                snprintfTrunc cfg.fnameLength (chars "Error: " ++ m) ++ chars "\n"] else []),
          logWriteCount := σ.logWriteCount + (if cfg.debug then 1 else 0),
          stderrOut := σ.stderrOut ++
            [snprintfTrunc cfg.fnameLength (chars "Error: " ++ m ++ chars "\n")] } := by
  by_cases hd : cfg.debug <;>
    simp only [run, ephem_errorBody, errorIntake, strcpyWrite, ephem_logBody, logWriteStep_eq,
      Result.andThen, Ref.deref, hl, ho, hd, if_true, if_false, List.append_nil,
      List.append_assoc, List.singleton_append, List.cons_append, List.nil_append] <;>
    simp [hl]

theorem run_error_open_strE (f : Nat) (cfg : Config) (σ : State)
    (hl : σ.latch = false) (ho : σ.logfileOpen = true) :
    ∃ o, run (f + 2) cfg (.error .strE) σ = Result.normal
      { σ with
          temp_stringA := σ.temp_stringE,
          temp_stringC := snprintfTrunc cfg.fnameLength
            (chars "Error: " ++ σ.temp_stringE ++ chars "\n"),
          temp_stringD := if cfg.debug then
              snprintfTrunc cfg.fnameLength (chars "Error: " ++ σ.temp_stringE)
            else σ.temp_stringD,
          overrun := o,
          diskLog := σ.diskLog ++ (if cfg.debug then
              [chars "[" ++ cfg.timestamp ++ chars "] " ++
                snprintfTrunc cfg.fnameLength (chars "Error: " ++ σ.temp_stringE) ++ chars "\n"]
            else []),
          logWriteCount := σ.logWriteCount + (if cfg.debug then 1 else 0),
          stderrOut := σ.stderrOut ++
            [snprintfTrunc cfg.fnameLength (chars "Error: " ++ σ.temp_stringE ++ chars "\n")] } := by
  by_cases hd : cfg.debug <;>
    simp only [run, ephem_errorBody, errorIntake, strcpyWrite, ephem_logBody, logWriteStep_eq,
      Result.andThen, Ref.deref, hl, ho, hd, if_true, if_false, List.append_nil,
      List.append_assoc, List.singleton_append, List.cons_append, List.nil_append] <;>
    simp [hl]

theorem run_fatal_open (f : Nat) (cfg : Config) (file : List Char) (line : Int) (r : Ref)
    (σ : State) (hl : σ.latch = false) (ho : σ.logfileOpen = true) :
    ∃ o, run (f + 3) cfg (.fatal file line r) σ = Result.exited 1
      { σ with
          temp_stringA := r.deref σ,
          temp_stringC := snprintfTrunc cfg.fnameLength
            (chars "Error: " ++ r.deref σ ++ chars "\n"),
          temp_stringD := if cfg.debug then chars "Terminating with error condition 1."
                          else σ.temp_stringD,
          temp_stringE := r.deref σ,
          overrun := o,
          diskLog := σ.diskLog ++ (if cfg.debug then
              [chars "[" ++ cfg.timestamp ++ chars "] " ++
                 snprintfTrunc cfg.fnameLength (chars "Error: " ++ fatalIntro cfg file line) ++
                 chars "\n",
               chars "[" ++ cfg.timestamp ++ chars "] " ++
                 snprintfTrunc cfg.fnameLength (chars "Error: " ++ r.deref σ) ++ chars "\n",
               chars "[" ++ cfg.timestamp ++ chars "] " ++
                 chars "Terminating with error condition 1." ++ chars "\n"] else []),
          logWriteCount := σ.logWriteCount + (if cfg.debug then 3 else 0),
          stderrOut := σ.stderrOut ++
            [snprintfTrunc cfg.fnameLength
               (chars "Error: " ++ fatalIntro cfg file line ++ chars "\n"),
             snprintfTrunc cfg.fnameLength (chars "Error: " ++ r.deref σ ++ chars "\n")] } := by
  by_cases hd : cfg.debug <;>
    simp only [run, ephem_fatalBody, ephem_errorBody, ephem_logBody, errorIntake, strcpyWrite,
      logWriteStep_eq, fatalIntake_eq, Result.andThen, Ref.deref, hl, ho, hd, if_true, if_false,
      List.append_nil, List.append_assoc, List.singleton_append, List.cons_append,
      List.nil_append] <;>
    simp [hl]

theorem run_log_openFail (f : Nat) (cfg : Config) (r : Ref) (σ : State)
    (hl : σ.latch = false) (ho : σ.logfileOpen = false) (hop : cfg.logOpenable = false) :
    ∃ o, run (f + 4) cfg (.log r) σ = Result.exited 1
      { σ with
          temp_stringA := chars "Could not open log file to write.",
          temp_stringC := snprintfTrunc cfg.fnameLength
            (chars "Error: " ++ chars "Could not open log file to write." ++ chars "\n"),
          temp_stringE := chars "Could not open log file to write.",
          latch := true,
          openAttempts := σ.openAttempts + 1,
          overrun := o,
          stderrOut := σ.stderrOut ++
            [snprintfTrunc cfg.fnameLength
               (chars "Error: " ++ fatalIntro cfg (chars "errorReport.c") 102 ++ chars "\n"),
             snprintfTrunc cfg.fnameLength
               (chars "Error: " ++ chars "Could not open log file to write." ++ chars "\n")] } := by
  by_cases hd : cfg.debug <;>
    simp only [run, ephem_logBody, ephem_fatalBody, ephem_errorBody, errorIntake, strcpyWrite,
      logWriteStep_eq, fatalIntake_eq, Result.andThen, Ref.deref, hl, ho, hop, hd, if_true,
      if_false, List.append_nil, List.append_assoc, List.singleton_append, List.cons_append,
      List.nil_append] <;>
    simp [hl]

theorem andThen_okOne {X : Result} {g : State → Result}
    (hX : OkOne X) (hG : ∀ σ, OkOne (g σ)) : OkOne (X.andThen g) := by
  rcases hX with ⟨σ', h⟩ | ⟨σ', h⟩ <;> subst h
  · exact hG σ'
  · exact Or.inr ⟨σ', rfl⟩

theorem andThen_exitsOne {X : Result} {g : State → Result}
    (hX : OkOne X) (hG : ∀ σ, ExitsOne (g σ)) : ExitsOne (X.andThen g) := by
  rcases hX with ⟨σ', h⟩ | ⟨σ', h⟩ <;> subst h
  · exact hG σ'
  · exact ⟨σ', rfl⟩

theorem run_log_total (f : Nat) (cfg : Config) (r : Ref) (σ : State) :
    OkOne (run (f + 4) cfg (.log r) σ) := by
  by_cases hl : σ.latch = true
  · exact Or.inl ⟨σ, run_log_latched (f + 3) cfg r σ hl⟩
  · have hl' : σ.latch = false := by simpa using hl
    by_cases ho : σ.logfileOpen = true
    · exact Or.inl ⟨_, run_log_open (f + 3) cfg r σ hl' ho⟩
    · have ho' : σ.logfileOpen = false := by simpa using ho
      by_cases hop : cfg.logOpenable = true
      · exact Or.inl ⟨_, run_log_firstOpen (f + 3) cfg r σ hl' ho' hop⟩
      · have hop' : cfg.logOpenable = false := by simpa using hop
        obtain ⟨o, h⟩ := run_log_openFail f cfg r σ hl' ho' hop'
        exact Or.inr ⟨_, h⟩

theorem run_error_total (f : Nat) (cfg : Config) (r : Ref) (σ : State) :
    OkOne (run (f + 5) cfg (.error r) σ) := by
  simp only [run_succ_error, ephem_errorBody]
  refine andThen_okOne ?_ (fun σ3 => Or.inl ⟨_, rfl⟩)
  by_cases hd : cfg.debug
  · simp only [hd, if_true]
    exact run_log_total f cfg Ref.strC _
  · simp only [hd, if_false]
    exact Or.inl ⟨_, rfl⟩

theorem run_fatal_exitsOne (f : Nat) (cfg : Config) (file : List Char) (line : Int) (r : Ref)
    (σ : State) : ExitsOne (run (f + 6) cfg (.fatal file line r) σ) := by
  simp only [run_succ_fatal, ephem_fatalBody]
  refine andThen_exitsOne (run_error_total f cfg _ _) (fun σ2 => ?_)
  refine andThen_exitsOne (run_error_total f cfg _ _) (fun σ3 => ?_)
  refine andThen_exitsOne ?_ (fun σ4 => ⟨σ4, rfl⟩)
  by_cases hd : cfg.debug
  · simp only [hd, if_true]
    exact run_log_total (f + 1) cfg _ _
  · simp only [hd, if_false]
    exact Or.inl ⟨_, rfl⟩

theorem andThen_codes {X : Result} {g : State → Result}
    (hX : ExitCodesOk X) (hG : ∀ σ, ExitCodesOk (g σ)) : ExitCodesOk (X.andThen g) := by
  cases X with
  | normal σ => exact hG σ
  | exited c σ2 => exact hX
  | stuck => exact Or.inl rfl

theorem run_codes (f : Nat) (cfg : Config) (c : Call) (σ : State) :
    ExitCodesOk (run f cfg c σ) := by
  induction f generalizing cfg c σ with
  | zero => exact Or.inl rfl
  | succ f ih =>
    cases c with
    | log r =>
      simp only [run_succ_log, ephem_logBody]
      split
      · exact Or.inl rfl
      · split
        · exact Or.inl rfl
        · split
          · exact Or.inl rfl
          · exact andThen_codes (ih _ _ _) (fun σ3 => Or.inr rfl)
    | error r =>
      simp only [run_succ_error, ephem_errorBody]
      refine andThen_codes ?_ (fun σ3 => Or.inl rfl)
      split
      · exact ih _ _ _
      · exact Or.inl rfl
    | warning r =>
      simp only [run_succ_warning, ephem_warningBody]
      refine andThen_codes ?_ (fun σ3 => Or.inl rfl)
      split
      · exact ih _ _ _
      · exact Or.inl rfl
    | report r =>
      simp only [run_succ_report, ephem_reportBody]
      refine andThen_codes ?_ (fun σ3 => Or.inl rfl)
      split
      · exact ih _ _ _
      · exact Or.inl rfl
    | fatal file line r =>
      simp only [run_succ_fatal, ephem_fatalBody]
      refine andThen_codes (ih _ _ _) (fun σ2 => ?_)
      refine andThen_codes (ih _ _ _) (fun σ3 => ?_)
      refine andThen_codes ?_ (fun σ4 => Or.inr rfl)
      split
      · exact ih _ _ _
      · exact Or.inl rfl
    | read size nmemb avail =>
      simp only [run_succ_read, dcffreadBody]
      split
      · exact ih _ _ _
      · exact Or.inl rfl

theorem run_warning_open_lit (f : Nat) (cfg : Config) (m : List Char) (σ : State)
    (hl : σ.latch = false) (ho : σ.logfileOpen = true) :
    ∃ o, run (f + 2) cfg (.warning (.lit m)) σ = Result.normal
      { σ with
          temp_stringA := m,
          temp_stringC := snprintfTrunc cfg.fnameLength (chars "Warning: " ++ m ++ chars "\n"),
          temp_stringD := if cfg.debug then snprintfTrunc cfg.fnameLength (chars "Warning: " ++ m)
                          else σ.temp_stringD,
          overrun := o,
          diskLog := σ.diskLog ++ (if cfg.debug then
              [chars "[" ++ cfg.timestamp ++ chars "] " ++
                snprintfTrunc cfg.fnameLength (chars "Warning: " ++ m) ++ chars "\n"] else []),
          logWriteCount := σ.logWriteCount + (if cfg.debug then 1 else 0),
          stderrOut := σ.stderrOut ++
            [snprintfTrunc cfg.fnameLength (chars "Warning: " ++ m ++ chars "\n")] } := by
  by_cases hd : cfg.debug <;>
    simp only [run, ephem_warningBody, copyToTempA, strcpyWrite, ephem_logBody, logWriteStep_eq,
      Result.andThen, Ref.deref, hl, ho, hd, if_true, if_false, List.append_nil,
      List.append_assoc, List.singleton_append, List.cons_append, List.nil_append] <;>
    simp [hl]

theorem run_report_open_lit (f : Nat) (cfg : Config) (m : List Char) (σ : State)
    (hl : σ.latch = false) (ho : σ.logfileOpen = true) :
    ∃ o, run (f + 2) cfg (.report (.lit m)) σ = Result.normal
      { σ with
          temp_stringA := m,
          temp_stringC := snprintfTrunc cfg.fnameLength (m ++ chars "\n"),
          temp_stringD := if cfg.debug then
              snprintfTrunc cfg.fnameLength (chars "Reporting: " ++ m)
            else σ.temp_stringD,
          overrun := o,
          diskLog := σ.diskLog ++ (if cfg.debug then
              [chars "[" ++ cfg.timestamp ++ chars "] " ++
                snprintfTrunc cfg.fnameLength (chars "Reporting: " ++ m) ++ chars "\n"] else []),
          logWriteCount := σ.logWriteCount + (if cfg.debug then 1 else 0),
          stdoutOut := σ.stdoutOut ++ [snprintfTrunc cfg.fnameLength (m ++ chars "\n")] } := by
  by_cases hd : cfg.debug <;>
    simp only [run, ephem_reportBody, copyToTempA, strcpyWrite, ephem_logBody, logWriteStep_eq,
      Result.andThen, Ref.deref, hl, ho, hd, if_true, if_false, List.append_nil,
      List.append_assoc, List.singleton_append, List.cons_append, List.nil_append] <;>
    simp [hl]

theorem run_error_nodebug_lit (f : Nat) (cfg : Config) (m : List Char) (σ : State)
    (hd : cfg.debug = false) :
    run (f + 1) cfg (.error (.lit m)) σ = Result.normal
      { σ with
          temp_stringA := m,
          temp_stringC := snprintfTrunc cfg.fnameLength (chars "Error: " ++ m ++ chars "\n"),
          overrun := σ.overrun || decide (cfg.lstrLength < m.length + 1),
          stderrOut := σ.stderrOut ++
            [snprintfTrunc cfg.fnameLength (chars "Error: " ++ m ++ chars "\n")] } := by
  simp only [run_succ_error, ephem_errorBody, errorIntake, strcpyWrite, Result.andThen,
    Ref.deref, hd, if_false]
  simp

theorem run_error_congr (f : Nat) (cfg : Config) (σ : State) (r1 r2 : Ref)
    (h : errorIntake cfg r1 σ = errorIntake cfg r2 σ) :
    run (f + 1) cfg (.error r1) σ = run (f + 1) cfg (.error r2) σ := by
  simp only [run_succ_error, ephem_errorBody, h]

theorem run_warning_congr (f : Nat) (cfg : Config) (σ : State) (r1 r2 : Ref)
    (h : copyToTempA cfg r1 σ = copyToTempA cfg r2 σ) :
    run (f + 1) cfg (.warning r1) σ = run (f + 1) cfg (.warning r2) σ := by
  simp only [run_succ_warning, ephem_warningBody, h]

theorem run_report_congr (f : Nat) (cfg : Config) (σ : State) (r1 r2 : Ref)
    (h : copyToTempA cfg r1 σ = copyToTempA cfg r2 σ) :
    run (f + 1) cfg (.report r1) σ = run (f + 1) cfg (.report r2) σ := by
  simp only [run_succ_report, ephem_reportBody, h]

theorem run_fatal_congr (f : Nat) (cfg : Config) (file : List Char) (line : Int) (σ : State)
    (r1 r2 : Ref) (h : fatalIntake cfg r1 σ = fatalIntake cfg r2 σ) :
    run (f + 1) cfg (.fatal file line r1) σ = run (f + 1) cfg (.fatal file line r2) σ := by
  simp only [run_succ_fatal, ephem_fatalBody, h]

theorem errorIntake_lit_self (cfg : Config) (σ : State)
    (h : σ.temp_stringA.length + 1 ≤ cfg.lstrLength) :
    errorIntake cfg (.lit σ.temp_stringA) σ = errorIntake cfg .strA σ := by
  have hno : ¬ cfg.lstrLength < σ.temp_stringA.length + 1 := Nat.not_lt.mpr h
  simp [errorIntake, strcpyWrite, Ref.deref, hno]

theorem copyToTempA_lit_self (cfg : Config) (σ : State)
    (h : σ.temp_stringA.length + 1 ≤ cfg.lstrLength) :
    copyToTempA cfg (.lit σ.temp_stringA) σ = copyToTempA cfg .strA σ := by
  have hno : ¬ cfg.lstrLength < σ.temp_stringA.length + 1 := Nat.not_lt.mpr h
  simp [copyToTempA, strcpyWrite, Ref.deref, hno]

theorem fatalIntake_lit_self (cfg : Config) (σ : State)
    (h : σ.temp_stringE.length + 1 ≤ cfg.lstrLength) :
    fatalIntake cfg (.lit σ.temp_stringE) σ = fatalIntake cfg .strE σ := by
  have hno : ¬ cfg.lstrLength < σ.temp_stringE.length + 1 := Nat.not_lt.mpr h
  simp [fatalIntake, strcpyWrite, Ref.deref, hno]

theorem run_read_short (f : Nat) (cfg : Config) (size nmemb avail : Nat) (σ : State)
    (hne : freadCount size nmemb avail ≠ nmemb) :
    run (f + 1) cfg (.read size nmemb avail) σ =
      run f cfg (.fatal (chars "errorReport.c") 114 (.lit (chars "file read fail"))) σ := by
  simp only [run_succ_read, dcffreadBody]
  rw [if_pos hne]

theorem run_log_firstOpen_eq (f : Nat) (cfg : Config) (r : Ref) (σ : State)
    (hl : σ.latch = false) (ho : σ.logfileOpen = false) (hop : cfg.logOpenable = true) :
    ∃ d o, run (f + 1) cfg (.log r) σ = Result.normal
      { σ with temp_stringD := d, overrun := o, latch := false, logfileOpen := true,
               lineBuffered := true, openAttempts := σ.openAttempts + 1,
               diskLog := [chars "[" ++ cfg.timestamp ++ chars "] " ++ r.deref σ ++ chars "\n"],
               logWriteCount := σ.logWriteCount + 1 } := by
  cases r <;>
    simp only [run, ephem_logBody, logWriteStep_eq, strcpyWrite, Ref.deref, hl, ho, hop,
      fopenContents_w, if_true, if_false, List.append_nil, List.nil_append] <;>
    simp [hl]

/-- Claim C1, counterexample: with debug mode off, a fatal invocation writes
nothing at all to the Log Sink (zero sink writes, empty log file), yet the
claim asserts the two error-severity lines reach the sink in every fatal
invocation independent of debug mode. -/
theorem fatal_nodebug_sink_silent :
    (ephem_fatal cfgNoDebug (chars "main.c") 10 (.lit (chars "boom")) initState).exitCode
        = some 1 ∧
    (ephem_fatal cfgNoDebug (chars "main.c") 10 (.lit (chars "boom"))
        initState).finalState.map State.logWriteCount = some 0 ∧
    (ephem_fatal cfgNoDebug (chars "main.c") 10 (.lit (chars "boom"))
        initState).finalState.map State.diskLog = some [] := by
  refine ⟨by decide, by decide, by decide⟩

/-- Claim C1, amended: a fatal invocation mirrors into the Log Sink only when
debug mode is active — with debug on, the two error-severity lines and the
terminal marker line (three sink writes) are recorded; with debug off, the
sink receives nothing from the fatal invocation. -/
theorem fatal_sink_mirroring_debug_gated (cfg : Config) (file : List Char) (line : Int)
    (r : Ref) (σ : State) (hl : σ.latch = false) (ho : σ.logfileOpen = true) :
    ∃ σ', ephem_fatal cfg file line r σ = Result.exited 1 σ' ∧
      σ'.logWriteCount = σ.logWriteCount + (if cfg.debug then 3 else 0) ∧
      σ'.diskLog.length = σ.diskLog.length + (if cfg.debug then 3 else 0) ∧
      (cfg.debug = false → σ'.diskLog = σ.diskLog) := by
  obtain ⟨o, h⟩ := run_fatal_open 5 cfg file line r σ hl ho
  refine ⟨_, h, rfl, ?_, ?_⟩
  · by_cases hd : cfg.debug <;> simp [hd]
  · intro hd; simp [hd]

/-- Witness for the amended claim C1 at a concrete debug configuration. -/
theorem fatal_sink_mirroring_debug_gated_witness :
    ∃ σ', ephem_fatal cfgDebug (chars "main.c") 10 (.lit (chars "boom")) sinkOpenState
        = Result.exited 1 σ' ∧
      σ'.logWriteCount = sinkOpenState.logWriteCount + (if cfgDebug.debug then 3 else 0) ∧
      σ'.diskLog.length = sinkOpenState.diskLog.length + (if cfgDebug.debug then 3 else 0) ∧
      (cfgDebug.debug = false → σ'.diskLog = sinkOpenState.diskLog) :=
  fatal_sink_mirroring_debug_gated cfgDebug (chars "main.c") 10 (.lit (chars "boom"))
    sinkOpenState rfl rfl

/-- Claim C2: a fatal invocation never returns control — from every state and
configuration (including one where the log file cannot be created) it
terminates the process with exit status 1 — and no entry point of the module
ever produces an exit status other than 1. -/
theorem fatal_always_exits_one :
    (∀ (cfg : Config) (file : List Char) (line : Int) (r : Ref) (σ : State),
        ∃ σ', ephem_fatal cfg file line r σ = Result.exited 1 σ') ∧
    (∀ (f : Nat) (cfg : Config) (c : Call) (σ : State),
        (run f cfg c σ).exitCode = none ∨ (run f cfg c σ).exitCode = some 1) :=
  ⟨fun cfg file line r σ => run_fatal_exitsOne 2 cfg file line r σ,
   fun f cfg c σ => run_codes f cfg c σ⟩

/-- Claim C3, counterexample: the first sink write opens `ephem.log` with
mode `"w"`, so pre-existing content (`old line`) is discarded rather than
appended to — the resulting file holds only the new line. -/
theorem log_first_open_truncates_existing :
    (ephem_log cfgNoDebug (.lit (chars "x"))
        { initState with diskLog := [chars "old line"] }).finalState.map State.diskLog
      = some [chars "[T] x\n"] ∧
    logOpenMode = chars "w" := by
  refine ⟨by decide, rfl⟩

/-- Claim C3, amended: on the first write the Log Sink opens its fixed-name
destination in write/truncate mode — created if absent, truncated if already
present (pre-existing content is discarded) — and the stream is set to
line-buffered flushing. -/
theorem log_first_open_write_mode (cfg : Config) (r : Ref) (σ : State)
    (hl : σ.latch = false) (ho : σ.logfileOpen = false) (hop : cfg.logOpenable = true) :
    ∃ σ', ephem_log cfg r σ = Result.normal σ' ∧
      σ'.logfileOpen = true ∧
      σ'.lineBuffered = true ∧
      σ'.openAttempts = σ.openAttempts + 1 ∧
      fopenContents logOpenMode σ.diskLog = [] ∧
      σ'.diskLog = [chars "[" ++ cfg.timestamp ++ chars "] " ++ r.deref σ ++ chars "\n"] := by
  obtain ⟨d, o, h⟩ := run_log_firstOpen_eq 7 cfg r σ hl ho hop
  exact ⟨_, h, rfl, rfl, rfl, rfl, rfl⟩

/-- Witness for the amended claim C3 on a fresh state. -/
theorem log_first_open_write_mode_witness :
    ∃ σ', ephem_log cfgNoDebug (.lit (chars "x")) initState = Result.normal σ' ∧
      σ'.logfileOpen = true ∧
      σ'.lineBuffered = true ∧
      σ'.openAttempts = initState.openAttempts + 1 ∧
      fopenContents logOpenMode initState.diskLog = [] ∧
      σ'.diskLog = [chars "[" ++ cfgNoDebug.timestamp ++ chars "] " ++
        Ref.deref (.lit (chars "x")) initState ++ chars "\n"] :=
  log_first_open_write_mode cfgNoDebug (.lit (chars "x")) initState rfl rfl rfl

/-- Claim C4: the code violates the truncation invariant — storing a message
longer than the slot capacity `LSTR_LENGTH` goes through an unbounded
`strcpy`, which copies the message whole (no truncation) and writes past the
end of the scratch slot. -/
theorem error_store_overruns_slot (cfg : Config) (m : List Char) (σ : State)
    (hd : cfg.debug = false) (hov : σ.overrun = false)
    (hlong : cfg.lstrLength < m.length + 1) :
    ∃ σ', ephem_error cfg (.lit m) σ = Result.normal σ' ∧
      σ'.overrun = true ∧ σ'.temp_stringA = m := by
  have h := run_error_nodebug_lit 7 cfg m σ hd
  refine ⟨_, h, ?_, rfl⟩
  simp [hov, hlong]

/-- Witness for claim C4: a five-character message overruns a four-byte slot. -/
theorem error_store_overruns_slot_witness :
    ∃ σ', ephem_error { cfgNoDebug with lstrLength := 4 } (.lit (chars "aaaaa")) initState
        = Result.normal σ' ∧
      σ'.overrun = true ∧ σ'.temp_stringA = chars "aaaaa" :=
  error_store_overruns_slot { cfgNoDebug with lstrLength := 4 } (chars "aaaaa") initState
    rfl rfl (by decide)

/-- Claim C5: a nested sink write while the latch is held is a silent no-op
returning normally with the state untouched; and when opening the sink fails,
the fatal sequence runs exactly once — one open attempt, no sink write, two
stderr lines — and the process exits with status 1. -/
theorem log_reentrancy_guard :
    (∀ (cfg : Config) (r : Ref) (σ : State), σ.latch = true →
        ephem_log cfg r σ = Result.normal σ) ∧
    (∀ (cfg : Config) (r : Ref) (σ : State), σ.latch = false → σ.logfileOpen = false →
        cfg.logOpenable = false →
        ∃ σ', ephem_log cfg r σ = Result.exited 1 σ' ∧
          σ'.openAttempts = σ.openAttempts + 1 ∧
          σ'.logWriteCount = σ.logWriteCount ∧
          σ'.diskLog = σ.diskLog ∧
          σ'.stderrOut.length = σ.stderrOut.length + 2 ∧
          σ'.logfileOpen = false) := by
  constructor
  · exact fun cfg r σ h => run_log_latched 7 cfg r σ h
  · intro cfg r σ hl ho hop
    obtain ⟨o, h⟩ := run_log_openFail 4 cfg r σ hl ho hop
    refine ⟨_, h, rfl, rfl, rfl, by simp, ho⟩

/-- Witness for claim C5: the latched no-op on a latched state, and the
open-failure path on a fresh state with an unopenable destination. -/
theorem log_reentrancy_guard_witness :
    ephem_log cfgNoDebug (.lit (chars "x")) { initState with latch := true }
        = Result.normal { initState with latch := true } ∧
    (∃ σ', ephem_log { cfgNoDebug with logOpenable := false } (.lit (chars "x")) initState
        = Result.exited 1 σ' ∧
      σ'.openAttempts = initState.openAttempts + 1 ∧
      σ'.logWriteCount = initState.logWriteCount ∧
      σ'.diskLog = initState.diskLog ∧
      σ'.stderrOut.length = initState.stderrOut.length + 2 ∧
      σ'.logfileOpen = false) :=
  ⟨log_reentrancy_guard.1 cfgNoDebug (.lit (chars "x")) { initState with latch := true } rfl,
   log_reentrancy_guard.2 { cfgNoDebug with logOpenable := false } (.lit (chars "x"))
     initState rfl rfl rfl⟩

/-- Claim C6: passing an emitter its own destination scratch slot is
indistinguishable from passing the same text as a fresh caller-owned value —
the aliasing check skips the self-copy and the entire observable outcome
(state and output) is identical. -/
theorem emitter_aliasing_noop (cfg : Config) (file : List Char) (line : Int) (σ : State)
    (hA : σ.temp_stringA.length + 1 ≤ cfg.lstrLength)
    (hE : σ.temp_stringE.length + 1 ≤ cfg.lstrLength) :
    ephem_error cfg (.lit σ.temp_stringA) σ = ephem_error cfg .strA σ ∧
    ephem_warning cfg (.lit σ.temp_stringA) σ = ephem_warning cfg .strA σ ∧
    ephem_report cfg (.lit σ.temp_stringA) σ = ephem_report cfg .strA σ ∧
    ephem_fatal cfg file line (.lit σ.temp_stringE) σ = ephem_fatal cfg file line .strE σ :=
  ⟨run_error_congr 7 cfg σ _ _ (errorIntake_lit_self cfg σ hA),
   run_warning_congr 7 cfg σ _ _ (copyToTempA_lit_self cfg σ hA),
   run_report_congr 7 cfg σ _ _ (copyToTempA_lit_self cfg σ hA),
   run_fatal_congr 7 cfg file line σ _ _ (fatalIntake_lit_self cfg σ hE)⟩

/-- Witness for claim C6 on a state with concrete slot contents. -/
theorem emitter_aliasing_noop_witness :
    ephem_error cfgDebug (.lit witState.temp_stringA) witState
        = ephem_error cfgDebug .strA witState ∧
    ephem_warning cfgDebug (.lit witState.temp_stringA) witState
        = ephem_warning cfgDebug .strA witState ∧
    ephem_report cfgDebug (.lit witState.temp_stringA) witState
        = ephem_report cfgDebug .strA witState ∧
    ephem_fatal cfgDebug (chars "main.c") 10 (.lit witState.temp_stringE) witState
        = ephem_fatal cfgDebug (chars "main.c") 10 .strE witState :=
  emitter_aliasing_noop cfgDebug (chars "main.c") 10 witState (by decide) (by decide)

/-- Claim C7: with the message within capacity, the Error and Warning
emitters write exactly `Error: m` / `Warning: m` plus newline to stderr, the
Report emitter writes exactly `m` plus newline to stdout, and with debug mode
active each additionally mirrors one sink line whose text carries the
`Error: ` / `Warning: ` / `Reporting: ` prefix respectively. -/
theorem emitter_output_formats (cfg : Config) (m : List Char) (σ : State)
    (hl : σ.latch = false) (ho : σ.logfileOpen = true)
    (hcap : m.length + 12 ≤ cfg.fnameLength) :
    (∃ σ', ephem_error cfg (.lit m) σ = Result.normal σ' ∧
        σ'.stderrOut = σ.stderrOut ++ [chars "Error: " ++ m ++ chars "\n"] ∧
        σ'.stdoutOut = σ.stdoutOut ∧
        σ'.diskLog = σ.diskLog ++ (if cfg.debug then
          [chars "[" ++ cfg.timestamp ++ chars "] " ++ chars "Error: " ++ m ++ chars "\n"]
          else [])) ∧
    (∃ σ', ephem_warning cfg (.lit m) σ = Result.normal σ' ∧
        σ'.stderrOut = σ.stderrOut ++ [chars "Warning: " ++ m ++ chars "\n"] ∧
        σ'.stdoutOut = σ.stdoutOut ∧
        σ'.diskLog = σ.diskLog ++ (if cfg.debug then
          [chars "[" ++ cfg.timestamp ++ chars "] " ++ chars "Warning: " ++ m ++ chars "\n"]
          else [])) ∧
    (∃ σ', ephem_report cfg (.lit m) σ = Result.normal σ' ∧
        σ'.stdoutOut = σ.stdoutOut ++ [m ++ chars "\n"] ∧
        σ'.stderrOut = σ.stderrOut ∧
        σ'.diskLog = σ.diskLog ++ (if cfg.debug then
          [chars "[" ++ cfg.timestamp ++ chars "] " ++ chars "Reporting: " ++ m ++ chars "\n"]
          else [])) := by
  have hE1 : snprintfTrunc cfg.fnameLength (chars "Error: " ++ m ++ chars "\n")
      = chars "Error: " ++ m ++ chars "\n" := by
    unfold snprintfTrunc
    apply List.take_of_length_le
    simp [chars]
    omega
  have hE2 : snprintfTrunc cfg.fnameLength (chars "Error: " ++ m) = chars "Error: " ++ m := by
    unfold snprintfTrunc
    apply List.take_of_length_le
    simp [chars]
    omega
  have hW1 : snprintfTrunc cfg.fnameLength (chars "Warning: " ++ m ++ chars "\n")
      = chars "Warning: " ++ m ++ chars "\n" := by
    unfold snprintfTrunc
    apply List.take_of_length_le
    simp [chars]
    omega
  have hW2 : snprintfTrunc cfg.fnameLength (chars "Warning: " ++ m) = chars "Warning: " ++ m := by
    unfold snprintfTrunc
    apply List.take_of_length_le
    simp [chars]
    omega
  have hR1 : snprintfTrunc cfg.fnameLength (m ++ chars "\n") = m ++ chars "\n" := by
    unfold snprintfTrunc
    apply List.take_of_length_le
    simp [chars]
    omega
  have hR2 : snprintfTrunc cfg.fnameLength (chars "Reporting: " ++ m)
      = chars "Reporting: " ++ m := by
    unfold snprintfTrunc
    apply List.take_of_length_le
    simp [chars]
    omega
  refine ⟨?_, ?_, ?_⟩
  · obtain ⟨o, h⟩ := run_error_open_lit 6 cfg m σ hl ho
    exact ⟨_, h, by rw [hE1], rfl, by rw [hE2]; simp [List.append_assoc]⟩
  · obtain ⟨o, h⟩ := run_warning_open_lit 6 cfg m σ hl ho
    exact ⟨_, h, by rw [hW1], rfl, by rw [hW2]; simp [List.append_assoc]⟩
  · obtain ⟨o, h⟩ := run_report_open_lit 6 cfg m σ hl ho
    exact ⟨_, h, by rw [hR1], rfl, by rw [hR2]; simp [List.append_assoc]⟩

/-- Witness for claim C7 with the message `sunrise` used as example in the spec. -/
theorem emitter_output_formats_witness :
    (∃ σ', ephem_error cfgDebug (.lit (chars "sunrise")) witState = Result.normal σ' ∧
        σ'.stderrOut = witState.stderrOut ++ [chars "Error: " ++ chars "sunrise" ++ chars "\n"] ∧
        σ'.stdoutOut = witState.stdoutOut ∧
        σ'.diskLog = witState.diskLog ++ (if cfgDebug.debug then
          [chars "[" ++ cfgDebug.timestamp ++ chars "] " ++ chars "Error: " ++
            chars "sunrise" ++ chars "\n"] else [])) ∧
    (∃ σ', ephem_warning cfgDebug (.lit (chars "sunrise")) witState = Result.normal σ' ∧
        σ'.stderrOut = witState.stderrOut ++ [chars "Warning: " ++ chars "sunrise" ++ chars "\n"] ∧
        σ'.stdoutOut = witState.stdoutOut ∧
        σ'.diskLog = witState.diskLog ++ (if cfgDebug.debug then
          [chars "[" ++ cfgDebug.timestamp ++ chars "] " ++ chars "Warning: " ++
            chars "sunrise" ++ chars "\n"] else [])) ∧
    (∃ σ', ephem_report cfgDebug (.lit (chars "sunrise")) witState = Result.normal σ' ∧
        σ'.stdoutOut = witState.stdoutOut ++ [chars "sunrise" ++ chars "\n"] ∧
        σ'.stderrOut = witState.stderrOut ∧
        σ'.diskLog = witState.diskLog ++ (if cfgDebug.debug then
          [chars "[" ++ cfgDebug.timestamp ++ chars "] " ++ chars "Reporting: " ++
            chars "sunrise" ++ chars "\n"] else [])) :=
  emitter_output_formats cfgDebug (chars "sunrise") witState rfl rfl (by decide)

/-- Claim C8: a Guarded Read that cannot obtain all requested complete
elements invokes the fatal path with the fixed `file read fail` diagnostic
and terminates the process with exit status 1 instead of returning. -/
theorem dcffread_short_read_fatal (cfg : Config) (size nmemb avail : Nat) (σ : State)
    (hs : 0 < size) (hshort : avail / size < nmemb) :
    dcffread cfg size nmemb avail σ =
      run 7 cfg (.fatal (chars "errorReport.c") 114 (.lit (chars "file read fail"))) σ ∧
    ∃ σ', dcffread cfg size nmemb avail σ = Result.exited 1 σ' := by
  have hn : 0 < nmemb := lt_of_le_of_lt (Nat.zero_le _) hshort
  have hne : freadCount size nmemb avail ≠ nmemb := by
    unfold freadCount
    rw [if_neg (by omega)]
    rw [Nat.min_eq_right (Nat.le_of_lt hshort)]
    exact Nat.ne_of_lt hshort
  have h1 := run_read_short 7 cfg size nmemb avail σ hne
  refine ⟨h1, ?_⟩
  obtain ⟨σ', h2⟩ :=
    run_fatal_exitsOne 1 cfg (chars "errorReport.c") 114 (.lit (chars "file read fail")) σ
  refine ⟨σ', ?_⟩
  show run (7 + 1) cfg (Call.read size nmemb avail) σ = Result.exited 1 σ'
  rw [h1]
  exact h2

/-- Witness for claim C8 at the example of the spec: 10 elements of 4 bytes from a
source yielding only 30 bytes. -/
theorem dcffread_short_read_fatal_witness :
    dcffread cfgNoDebug 4 10 30 initState =
      run 7 cfgNoDebug (.fatal (chars "errorReport.c") 114 (.lit (chars "file read fail")))
        initState ∧
    ∃ σ', dcffread cfgNoDebug 4 10 30 initState = Result.exited 1 σ' :=
  dcffread_short_read_fatal cfgNoDebug 4 10 30 initState (by decide) (by decide)

/-- Claim C9: `ephem_fatal` copies its message into `temp_stringE` before the
location line goes through the Error path, so a message aliasing
`temp_stringA` (which the location line overwrites) is still emitted intact
as the second fatal stderr line. -/
theorem fatal_preserves_message_via_tempE (cfg : Config) (file : List Char) (line : Int)
    (σ : State) (hl : σ.latch = false) (ho : σ.logfileOpen = true)
    (hcap : σ.temp_stringA.length + 9 ≤ cfg.fnameLength) :
    ∃ σ', ephem_fatal cfg file line .strA σ = Result.exited 1 σ' ∧
      σ'.temp_stringE = σ.temp_stringA ∧
      σ'.stderrOut = σ.stderrOut ++
        [snprintfTrunc cfg.fnameLength
           (chars "Error: " ++ fatalIntro cfg file line ++ chars "\n"),
         chars "Error: " ++ σ.temp_stringA ++ chars "\n"] := by
  obtain ⟨o, h⟩ := run_fatal_open 5 cfg file line .strA σ hl ho
  have e : snprintfTrunc cfg.fnameLength (chars "Error: " ++ Ref.deref .strA σ ++ chars "\n")
      = chars "Error: " ++ σ.temp_stringA ++ chars "\n" := by
    unfold snprintfTrunc
    apply List.take_of_length_le
    simp [chars, Ref.deref]
    omega
  exact ⟨_, h, rfl, by rw [e]⟩

/-- Witness for claim C9 with `temp_stringA` holding `boom`. -/
theorem fatal_preserves_message_via_tempE_witness :
    ∃ σ', ephem_fatal cfgDebug (chars "main.c") 10 .strA witState = Result.exited 1 σ' ∧
      σ'.temp_stringE = witState.temp_stringA ∧
      σ'.stderrOut = witState.stderrOut ++
        [snprintfTrunc cfgDebug.fnameLength
           (chars "Error: " ++ fatalIntro cfgDebug (chars "main.c") 10 ++ chars "\n"),
         chars "Error: " ++ witState.temp_stringA ++ chars "\n"] :=
  fatal_preserves_message_via_tempE cfgDebug (chars "main.c") 10 witState rfl rfl (by decide)

/-- Claim C10: every stream line and every sink-mirror text formatted by the
Error, Warning and Report emitters is truncated to `FNAME_LENGTH` (at most
`FNAME_LENGTH - 1` characters kept) at `snprintf` time, while the scratch
slot receives the incoming message whole (its capacity is the larger
`LSTR_LENGTH`, enforced by no copy-time truncation at all). -/
theorem emitter_truncation_fname (cfg : Config) (m : List Char) (σ : State)
    (hl : σ.latch = false) (ho : σ.logfileOpen = true) :
    (∃ σ', ephem_error cfg (.lit m) σ = Result.normal σ' ∧
        σ'.temp_stringA = m ∧
        σ'.stderrOut = σ.stderrOut ++
          [(chars "Error: " ++ m ++ chars "\n").take (cfg.fnameLength - 1)] ∧
        ((chars "Error: " ++ m ++ chars "\n").take (cfg.fnameLength - 1)).length
          ≤ cfg.fnameLength - 1 ∧
        (cfg.debug = true → σ'.diskLog = σ.diskLog ++
          [chars "[" ++ cfg.timestamp ++ chars "] " ++
            (chars "Error: " ++ m).take (cfg.fnameLength - 1) ++ chars "\n"])) ∧
    (∃ σ', ephem_warning cfg (.lit m) σ = Result.normal σ' ∧
        σ'.temp_stringA = m ∧
        σ'.stderrOut = σ.stderrOut ++
          [(chars "Warning: " ++ m ++ chars "\n").take (cfg.fnameLength - 1)] ∧
        ((chars "Warning: " ++ m ++ chars "\n").take (cfg.fnameLength - 1)).length
          ≤ cfg.fnameLength - 1 ∧
        (cfg.debug = true → σ'.diskLog = σ.diskLog ++
          [chars "[" ++ cfg.timestamp ++ chars "] " ++
            (chars "Warning: " ++ m).take (cfg.fnameLength - 1) ++ chars "\n"])) ∧
    (∃ σ', ephem_report cfg (.lit m) σ = Result.normal σ' ∧
        σ'.temp_stringA = m ∧
        σ'.stdoutOut = σ.stdoutOut ++ [(m ++ chars "\n").take (cfg.fnameLength - 1)] ∧
        ((m ++ chars "\n").take (cfg.fnameLength - 1)).length ≤ cfg.fnameLength - 1 ∧
        (cfg.debug = true → σ'.diskLog = σ.diskLog ++
          [chars "[" ++ cfg.timestamp ++ chars "] " ++
            (chars "Reporting: " ++ m).take (cfg.fnameLength - 1) ++ chars "\n"])) := by
  refine ⟨?_, ?_, ?_⟩
  · obtain ⟨o, h⟩ := run_error_open_lit 6 cfg m σ hl ho
    refine ⟨_, h, rfl, rfl, List.length_take_le _ _, ?_⟩
    intro hd
    simp [hd, snprintfTrunc]
  · obtain ⟨o, h⟩ := run_warning_open_lit 6 cfg m σ hl ho
    refine ⟨_, h, rfl, rfl, List.length_take_le _ _, ?_⟩
    intro hd
    simp [hd, snprintfTrunc]
  · obtain ⟨o, h⟩ := run_report_open_lit 6 cfg m σ hl ho
    refine ⟨_, h, rfl, rfl, List.length_take_le _ _, ?_⟩
    intro hd
    simp [hd, snprintfTrunc]

/-- Witness for claim C10 with a 16-character message against a capacity of 10. -/
theorem emitter_truncation_fname_witness :
    (∃ σ', ephem_error cfgSmall (.lit (chars "0123456789ABCDEF")) witState
        = Result.normal σ' ∧
        σ'.temp_stringA = chars "0123456789ABCDEF" ∧
        σ'.stderrOut = witState.stderrOut ++
          [(chars "Error: " ++ chars "0123456789ABCDEF" ++ chars "\n").take
            (cfgSmall.fnameLength - 1)] ∧
        ((chars "Error: " ++ chars "0123456789ABCDEF" ++ chars "\n").take
          (cfgSmall.fnameLength - 1)).length ≤ cfgSmall.fnameLength - 1 ∧
        (cfgSmall.debug = true → σ'.diskLog = witState.diskLog ++
          [chars "[" ++ cfgSmall.timestamp ++ chars "] " ++
            (chars "Error: " ++ chars "0123456789ABCDEF").take (cfgSmall.fnameLength - 1) ++
            chars "\n"])) ∧
    (∃ σ', ephem_warning cfgSmall (.lit (chars "0123456789ABCDEF")) witState
        = Result.normal σ' ∧
        σ'.temp_stringA = chars "0123456789ABCDEF" ∧
        σ'.stderrOut = witState.stderrOut ++
          [(chars "Warning: " ++ chars "0123456789ABCDEF" ++ chars "\n").take
            (cfgSmall.fnameLength - 1)] ∧
        ((chars "Warning: " ++ chars "0123456789ABCDEF" ++ chars "\n").take
          (cfgSmall.fnameLength - 1)).length ≤ cfgSmall.fnameLength - 1 ∧
        (cfgSmall.debug = true → σ'.diskLog = witState.diskLog ++
          [chars "[" ++ cfgSmall.timestamp ++ chars "] " ++
            (chars "Warning: " ++ chars "0123456789ABCDEF").take (cfgSmall.fnameLength - 1) ++
            chars "\n"])) ∧
    (∃ σ', ephem_report cfgSmall (.lit (chars "0123456789ABCDEF")) witState
        = Result.normal σ' ∧
        σ'.temp_stringA = chars "0123456789ABCDEF" ∧
        σ'.stdoutOut = witState.stdoutOut ++
          [(chars "0123456789ABCDEF" ++ chars "\n").take (cfgSmall.fnameLength - 1)] ∧
        ((chars "0123456789ABCDEF" ++ chars "\n").take (cfgSmall.fnameLength - 1)).length
          ≤ cfgSmall.fnameLength - 1 ∧
        (cfgSmall.debug = true → σ'.diskLog = witState.diskLog ++
          [chars "[" ++ cfgSmall.timestamp ++ chars "] " ++
            (chars "Reporting: " ++ chars "0123456789ABCDEF").take (cfgSmall.fnameLength - 1) ++
            chars "\n"])) :=
  emitter_truncation_fname cfgSmall (chars "0123456789ABCDEF") witState rfl rfl
